import Mathlib

/-!
Shallow embedding of the video-thumbnail compositing core of `src/App.py`
(`add_thumbnail_overlay`, `create_thumbnail_intro`) and proofs of the
specification claims about it.

Modelling conventions:
* a pixel is a 3-channel vector of natural channel values (uint8 buffers hold
  values in 0..255; bound hypotheses are stated where the arithmetic needs them);
* a frame is a total function from (row, column) to pixels — buffer shapes are
  tracked separately via the video/asset dimensions, and the numpy
  shape-mismatch failure of `cv2.addWeighted` on a truncated region-of-interest
  slice is modelled explicitly in the frame loop;
* external collaborators (the decoder `cv2.VideoCapture`, the image loaders
  `cv2.imread` / `PIL.Image.open`, the resampler `cv2.resize`, the encoder
  `cv2.VideoWriter`) are fields of a `World` record: the decoder yields a list
  of decodable frames, the loaders yield optional assets, the resampler is an
  abstract total function, and the writer creates the output file when opened;
* Python `int()` on a nonnegative float is truncation toward zero, modelled by
  `pyInt` over exact rationals; Python `//` is floor division (`Int.fdiv`);
* `cv2.addWeighted` on 8-bit buffers computes `src1*w1 + src2*w2` per channel in
  exact arithmetic, rounds to the nearest integer with ties to even
  (`saturate_cast` / `cvRound`), and clamps to 0..255 (`satCast`);
* Python exceptions are `Except PyExc` values; the catch-all
  `except Exception: return False` of both entry points is `runWrap`.
-/

/-- Pixel: one natural channel value per colour channel (BGR order, 3 channels). -/
abbrev Pix := Fin 3 → ℕ

/-- Frame: a total pixel buffer indexed by (row, column). -/
abbrev Frame := ℕ → ℕ → Pix

/-- Loaded thumbnail image: pixel data plus its numpy shape,
`h = shape[0]` (rows) and `w = shape[1]` (columns). -/
structure Asset where
  pix : Frame
  h : ℤ
  w : ℤ

/-- Python exceptions that the compositing code can raise inside its `try` block. -/
inductive PyExc where
  | zeroDivision
  | cvError
  | loadError
deriving DecidableEq

/-- External collaborators and input data of one compositing request. -/
structure World where
  /-- whether `cv2.VideoCapture(video_path).isOpened()` -/
  videoOpens : Bool
  /-- `cap.get(cv2.CAP_PROP_FPS)` -/
  fps : ℚ
  /-- `int(cap.get(cv2.CAP_PROP_FRAME_WIDTH))` -/
  width : ℤ
  /-- `int(cap.get(cv2.CAP_PROP_FRAME_HEIGHT))` -/
  height : ℤ
  /-- `int(cap.get(cv2.CAP_PROP_FRAME_COUNT))` -/
  totalFrames : ℤ
  /-- the frames `cap.read()` yields, in order, until it returns `ret = False` -/
  frames : List Frame
  /-- result of `cv2.imread(thumbnail_path)` (`none` models a `None` return) -/
  imread : Option Asset
  /-- result of the `PIL.Image.open` fallback (`none` models a raised exception) -/
  pilLoad : Option Asset
  /-- `cv2.resize(asset, (newW, newH))`, an abstract external resampler -/
  resize : Asset → ℤ → ℤ → Frame

/-- Observable outcome of one run: the boolean the Python function returns, the
frames written to the sink, and whether a file exists at the output path after
the function returns (the `cv2.VideoWriter` creates it when opened; nothing in
the code ever deletes it). -/
structure RunResult where
  ok : Bool
  written : List Frame
  fileExists : Bool

/-- Python `int()` applied to an exact rational: truncation toward zero. -/
def pyInt (q : ℚ) : ℤ := if q < 0 then ⌈q⌉ else ⌊q⌋

/-- OpenCV `cvRound`: round to the nearest integer, ties to even. -/
def cvRound (q : ℚ) : ℤ :=
  if q - ⌊q⌋ < 1/2 then ⌊q⌋
  else if 1/2 < q - ⌊q⌋ then ⌊q⌋ + 1
  else if Even ⌊q⌋ then ⌊q⌋ else ⌊q⌋ + 1

/-- OpenCV `saturate_cast<uchar>`: round to nearest, then clamp to 0..255. -/
def satCast (q : ℚ) : ℕ := (max 0 (min 255 (cvRound q))).toNat

/-- Thumbnail opacity, hard-coded `alpha = 0.8` at line 82 of `App.py`. -/
def alpha : ℚ := 8/10

/-- One channel of `cv2.addWeighted(a1, w1, a2, w2, 0)` on 8-bit data. -/
def addWeightedChan (a1 : ℕ) (w1 : ℚ) (a2 : ℕ) (w2 : ℚ) : ℕ :=
  satCast ((a1 : ℚ) * w1 + (a2 : ℚ) * w2)

/-- Per-pixel blend `cv2.addWeighted(roi, 1 - alpha, thumbnail, alpha, 0)`. -/
def blendPix (dp ap : Pix) : Pix :=
  fun ch => addWeightedChan (dp ch) (1 - alpha) (ap ch) alpha

/-- Placement of the scaled thumbnail on the video frame:
`tw`/`th` are `thumb_width`/`thumb_height`, `(x, y)` the clamped origin. -/
structure Placement where
  tw : ℤ
  th : ℤ
  x : ℤ
  y : ℤ
deriving DecidableEq

/-- Lines 79–87 of `App.py`: copy the frame and write the blended
region-of-interest `[y, y+th) × [x, x+tw)` back into the copy. -/
def blendRegion (dest resized : Frame) (p : Placement) : Frame :=
  fun r c =>
    if p.y ≤ (r : ℤ) ∧ (r : ℤ) < p.y + p.th ∧ p.x ≤ (c : ℤ) ∧ (c : ℤ) < p.x + p.tw then
      blendPix (dest r c) (resized ((r : ℤ) - p.y).toNat ((c : ℤ) - p.x).toNat)
    else dest r c

/-- Lines 37–41 of `App.py`: `cv2.imread`, falling back to PIL; a PIL failure
is a raised exception that the outer handler will catch. -/
def loadThumb (wld : World) : Except PyExc Asset :=
  match wld.imread with
  | some a => .ok a
  | none =>
    match wld.pilLoad with
    | some a => .ok a
    | none => .error .loadError

/-- Lines 48–58 of `App.py`: unclamped overlay origin for a position string
(any unrecognised string falls through to center; `//` is Python floor
division). -/
def rawPosition (position : String) (width height tw th : ℤ) : ℤ × ℤ :=
  if position = "top-right" then (width - tw - 20, 20)
  else if position = "top-left" then (20, 20)
  else if position = "bottom-right" then (width - tw - 20, height - th - 20)
  else if position = "bottom-left" then (20, height - th - 20)
  else (Int.fdiv (width - tw) 2, Int.fdiv (height - th) 2)

/-- Lines 44–62 of `App.py`: scaled thumbnail size and clamped origin.
`thumb_width = int(width * size_ratio)`,
`thumb_height = int(thumb_width * shape[0] / shape[1])` (a `ZeroDivisionError`
when the asset width `shape[1]` is 0), then the anchor position clamped by
`x = max(0, min(x, width - thumb_width))` and
`y = max(0, min(y, height - thumb_height))`. -/
def resolvePlacement (width height assetW assetH : ℤ) (sr : ℚ) (position : String) :
    Except PyExc Placement :=
  if assetW = 0 then .error .zeroDivision
  else
    .ok
      { tw := pyInt ((width : ℚ) * sr)
        th := pyInt ((pyInt ((width : ℚ) * sr) : ℚ) * (assetH : ℚ) / (assetW : ℚ))
        x := max 0 (min (rawPosition position width height (pyInt ((width : ℚ) * sr))
              (pyInt ((pyInt ((width : ℚ) * sr) : ℚ) * (assetH : ℚ) / (assetW : ℚ)))).1
              (width - pyInt ((width : ℚ) * sr)))
        y := max 0 (min (rawPosition position width height (pyInt ((width : ℚ) * sr))
              (pyInt ((pyInt ((width : ℚ) * sr) : ℚ) * (assetH : ℚ) / (assetW : ℚ)))).2
              (height - pyInt ((pyInt ((width : ℚ) * sr) : ℚ) * (assetH : ℚ) / (assetW : ℚ)))) }

/-- Lines 71–93 of `App.py`: the per-frame loop. `i` is `frame_count`; while
`i < duration_frames` the region-of-interest is blended, afterwards frames pass
through unmodified. The slice `frame[y:y+th, x:x+tw]` of a `height × width`
buffer is truncated by numpy when the rectangle overruns the frame, and
`cv2.addWeighted` then raises on the shape mismatch with the resized thumbnail;
that abort keeps the frames already written. Returns the written frames and
whether the loop finished without raising. -/
def overlayLoop (resized : Frame) (p : Placement) (width height d : ℤ) :
    ℤ → List Frame → List Frame × Bool
  | _, [] => ([], true)
  | i, f :: rest =>
    if i < d then
      if p.x + p.tw ≤ width ∧ p.y + p.th ≤ height then
        (blendRegion f resized p :: (overlayLoop resized p width height d (i + 1) rest).1,
         (overlayLoop resized p width height d (i + 1) rest).2)
      else ([], false)
    else
      (f :: (overlayLoop resized p width height d (i + 1) rest).1,
       (overlayLoop resized p width height d (i + 1) rest).2)

/-- Body of `add_thumbnail_overlay`, up to the surrounding `try`: the control
outcome (a normal boolean return, or an exception escaping to the handler),
the frames written to the sink, and whether the sink was opened (line 66
creates the output file). -/
def overlayBody (wld : World) (position : String) (sr : ℚ) (d : ℤ) :
    Except PyExc Bool × List Frame × Bool :=
  if wld.videoOpens = false then (.ok false, [], false)
  else
    match loadThumb wld with
    | .error e => (.error e, [], false)
    | .ok a =>
      match resolvePlacement wld.width wld.height a.w a.h sr position with
      | .error e => (.error e, [], false)
      | .ok p =>
        ((if (overlayLoop (wld.resize a p.tw p.th) p wld.width wld.height d 0 wld.frames).2
            then Except.ok true else Except.error PyExc.cvError),
         (overlayLoop (wld.resize a p.tw p.th) p wld.width wld.height d 0 wld.frames).1,
         true)

/-- Body of `create_thumbnail_intro`, lines 118–159: resize the asset to the
full video size, write `int(fps * intro_duration_sec)` copies of it, then every
source frame. -/
def introBody (wld : World) (sec : ℤ) : Except PyExc Bool × List Frame × Bool :=
  if wld.videoOpens = false then (.ok false, [], false)
  else
    match loadThumb wld with
    | .error e => (.error e, [], false)
    | .ok a =>
      (.ok true,
       List.replicate (pyInt (wld.fps * (sec : ℚ))).toNat (wld.resize a wld.width wld.height)
         ++ wld.frames,
       true)

/-- The `try ... except Exception: return False` wrapper shared by both entry
points: an escaped exception becomes the return value `False`; the frames
already written and the output file (if the sink was opened) are left as they
are. -/
def runWrap (r : Except PyExc Bool × List Frame × Bool) : RunResult :=
  match r with
  | (.ok b, outs, opened) => ⟨b, outs, opened⟩
  | (.error _, outs, opened) => ⟨false, outs, opened⟩

/-- `add_thumbnail_overlay` of `App.py` (lines 9–103). -/
def add_thumbnail_overlay (wld : World) (position : String) (sr : ℚ) (d : ℤ) : RunResult :=
  runWrap (overlayBody wld position sr d)

/-- `create_thumbnail_intro` of `App.py` (lines 105–163). -/
def create_thumbnail_intro (wld : World) (sec : ℤ) : RunResult :=
  runWrap (introBody wld sec)

/-! ### Concrete inputs used to instantiate the theorems -/

/-- Frame whose every channel is 100. -/
def grayFrame : Frame := fun _ _ => fun _ => 100

/-- Frame whose every channel is 200. -/
def lightFrame : Frame := fun _ _ => fun _ => 200

/-- A 5×5 thumbnail asset. -/
def squareAsset : Asset := ⟨grayFrame, 5, 5⟩

/-- A tall 1×100 thumbnail asset (1 column, 100 rows). -/
def tallAsset : Asset := ⟨grayFrame, 100, 1⟩

/-- A zero-width thumbnail asset (numpy shape (50, 0)). -/
def zeroWidthAsset : Asset := ⟨grayFrame, 50, 0⟩

/-- A 10×10 video with one decodable frame and a 5×5 asset; the resampler
returns the all-200 buffer. -/
def squareWorld : World :=
  { videoOpens := true, fps := 30, width := 10, height := 10, totalFrames := 1,
    frames := [grayFrame], imread := some squareAsset, pilLoad := none,
    resize := fun _ _ _ => lightFrame }

/-- A 29.97 fps video with no decodable frames and a loadable asset. -/
def ntscWorld : World :=
  { videoOpens := true, fps := 2997/100, width := 320, height := 240, totalFrames := 0,
    frames := [], imread := some squareAsset, pilLoad := none,
    resize := fun _ _ _ => lightFrame }

/-- A 10×10 video with one decodable frame and the tall 1×100 asset: at
`size_ratio = 1` the scaled thumbnail is 10×1000 and overruns the frame. -/
def tallWorld : World :=
  { videoOpens := true, fps := 30, width := 10, height := 10, totalFrames := 1,
    frames := [grayFrame], imread := some tallAsset, pilLoad := none,
    resize := fun _ _ _ => lightFrame }

/-- A world whose thumbnail has zero native width. -/
def zeroWidthWorld : World :=
  { videoOpens := true, fps := 30, width := 1920, height := 1080, totalFrames := 1,
    frames := [grayFrame], imread := some zeroWidthAsset, pilLoad := none,
    resize := fun _ _ _ => lightFrame }

/-- A world whose input video fails to open. -/
def unopenableWorld : World :=
  { videoOpens := false, fps := 30, width := 1920, height := 1080, totalFrames := 1,
    frames := [grayFrame], imread := some squareAsset, pilLoad := none,
    resize := fun _ _ _ => lightFrame }

/-- A world whose thumbnail cannot be loaded: `cv2.imread` returns `None` and
the PIL fallback raises. -/
def badAssetWorld : World :=
  { videoOpens := true, fps := 30, width := 1920, height := 1080, totalFrames := 1,
    frames := [grayFrame], imread := none, pilLoad := none,
    resize := fun _ _ _ => lightFrame }

/-! ### Helper lemmas about the embedding -/

theorem overlayLoop_ok_length (resized : Frame) (p : Placement) (width height d : ℤ) :
    ∀ (fs : List Frame) (i : ℤ),
      (overlayLoop resized p width height d i fs).2 = true →
      (overlayLoop resized p width height d i fs).1.length = fs.length := by
  intro fs
  induction fs with
  | nil => intro i _; simp [overlayLoop]
  | cons f rest ih =>
    intro i hok
    by_cases hid : i < d
    · by_cases hfit : p.x + p.tw ≤ width ∧ p.y + p.th ≤ height
      · simp only [overlayLoop, if_pos hid, if_pos hfit] at hok ⊢
        simp [ih (i + 1) hok]
      · simp [overlayLoop, if_pos hid, if_neg hfit] at hok
    · simp only [overlayLoop, if_neg hid] at hok ⊢
      simp [ih (i + 1) hok]

theorem overlayLoop_ok_getElem (resized : Frame) (p : Placement) (width height d : ℤ) :
    ∀ (fs : List Frame) (i : ℤ),
      (overlayLoop resized p width height d i fs).2 = true →
      ∀ j : ℕ,
        (overlayLoop resized p width height d i fs).1[j]? =
          (fs[j]?).map (fun g => if i + (j : ℤ) < d then blendRegion g resized p else g) := by
  intro fs
  induction fs with
  | nil => intro i _ j; simp [overlayLoop]
  | cons f rest ih =>
    intro i hok j
    by_cases hid : i < d
    · by_cases hfit : p.x + p.tw ≤ width ∧ p.y + p.th ≤ height
      · simp only [overlayLoop, if_pos hid, if_pos hfit] at hok ⊢
        cases j with
        | zero =>
          simp [if_pos hid]
        | succ j2 =>
          have hcast : i + ((j2 + 1 : ℕ) : ℤ) = (i + 1) + (j2 : ℤ) := by push_cast; ring
          simp only [List.getElem?_cons_succ, ih (i + 1) hok j2, hcast]
      · simp [overlayLoop, if_pos hid, if_neg hfit] at hok
    · simp only [overlayLoop, if_neg hid] at hok ⊢
      cases j with
      | zero =>
        simp [if_neg hid]
      | succ j2 =>
        have hcast : i + ((j2 + 1 : ℕ) : ℤ) = (i + 1) + (j2 : ℤ) := by push_cast; ring
        simp only [List.getElem?_cons_succ, ih (i + 1) hok j2, hcast]

theorem overlay_run_eq (wld : World) (position : String) (sr : ℚ) (d : ℤ) (a : Asset)
    (p : Placement) (hopen : wld.videoOpens = true) (hload : loadThumb wld = .ok a)
    (hres : resolvePlacement wld.width wld.height a.w a.h sr position = .ok p) :
    add_thumbnail_overlay wld position sr d =
      ⟨(overlayLoop (wld.resize a p.tw p.th) p wld.width wld.height d 0 wld.frames).2,
       (overlayLoop (wld.resize a p.tw p.th) p wld.width wld.height d 0 wld.frames).1,
       true⟩ := by
  simp only [add_thumbnail_overlay, overlayBody, hopen, hload, hres]
  cases hloop : (overlayLoop (wld.resize a p.tw p.th) p wld.width wld.height d 0 wld.frames).2 <;>
    simp [runWrap, hloop]

theorem overlay_ok_cases (wld : World) (position : String) (sr : ℚ) (d : ℤ)
    (hok : (add_thumbnail_overlay wld position sr d).ok = true) :
    wld.videoOpens = true ∧
      ∃ a, loadThumb wld = .ok a ∧
        ∃ p, resolvePlacement wld.width wld.height a.w a.h sr position = .ok p ∧
          (overlayLoop (wld.resize a p.tw p.th) p wld.width wld.height d 0 wld.frames).2 = true := by
  by_cases hopen : wld.videoOpens = true
  · refine ⟨hopen, ?_⟩
    cases hload : loadThumb wld with
    | error e =>
      exfalso
      simp [add_thumbnail_overlay, overlayBody, hopen, hload, runWrap] at hok
    | ok a =>
      refine ⟨a, rfl, ?_⟩
      cases hres : resolvePlacement wld.width wld.height a.w a.h sr position with
      | error e =>
        exfalso
        simp [add_thumbnail_overlay, overlayBody, hopen, hload, hres, runWrap] at hok
      | ok p =>
        refine ⟨p, rfl, ?_⟩
        have := overlay_run_eq wld position sr d a p hopen hload hres
        rw [this] at hok
        exact hok
  · exfalso
    simp only [Bool.not_eq_true] at hopen
    simp [add_thumbnail_overlay, overlayBody, hopen, runWrap] at hok

theorem pyInt_eq_floor (q : ℚ) (h : 0 ≤ q) : pyInt q = ⌊q⌋ := by
  simp [pyInt, not_lt.mpr h]

theorem cvRound_nonneg (q : ℚ) (h : 0 ≤ q) : 0 ≤ cvRound q := by
  have hf : (0 : ℤ) ≤ ⌊q⌋ := by
    rw [Int.le_floor]
    exact_mod_cast h
  unfold cvRound
  split
  · exact hf
  · split
    · omega
    · split <;> omega

theorem cvRound_le_255 (q : ℚ) (h : q ≤ 255) : cvRound q ≤ 255 := by
  have hf : ⌊q⌋ ≤ 255 := by
    calc ⌊q⌋ ≤ ⌊(255 : ℚ)⌋ := Int.floor_le_floor h
    _ = 255 := by norm_num
  unfold cvRound
  split
  · exact hf
  · rename_i h1
    push_neg at h1
    split
    · rename_i h2
      have hlt : (⌊q⌋ : ℚ) < q - 1/2 := by linarith
      have : (⌊q⌋ : ℚ) < (254.5 : ℚ) := by
        have := Int.floor_le q
        linarith
      have : ⌊q⌋ < 255 := by
        have h255 : ((255 : ℤ) : ℚ) = 255 := by norm_num
        rw [← @Int.cast_lt ℚ]
        push_cast
        linarith
      omega
    · rename_i h2
      push_neg at h2
      have heq : q - ⌊q⌋ = 1/2 := le_antisymm h2 h1
      have : (⌊q⌋ : ℚ) = q - 1/2 := by linarith
      have : (⌊q⌋ : ℚ) ≤ (254.5 : ℚ) := by linarith
      have hlt : ⌊q⌋ < 255 := by
        rw [← @Int.cast_lt ℚ]
        push_cast
        linarith
      split <;> omega

theorem satCast_eq_cvRound (q : ℚ) (h0 : 0 ≤ q) (h255 : q ≤ 255) :
    satCast q = (cvRound q).toNat := by
  have h1 := cvRound_nonneg q h0
  have h2 := cvRound_le_255 q h255
  unfold satCast
  congr 1
  omega

theorem intro_run_eq (wld : World) (sec : ℤ) (a : Asset)
    (hopen : wld.videoOpens = true) (hload : loadThumb wld = .ok a) :
    create_thumbnail_intro wld sec =
      ⟨true,
       List.replicate (pyInt (wld.fps * (sec : ℚ))).toNat (wld.resize a wld.width wld.height)
         ++ wld.frames,
       true⟩ := by
  simp [create_thumbnail_intro, introBody, hopen, hload, runWrap]

theorem thumbWidth_le (width : ℤ) (sr : ℚ) (h0 : 0 ≤ width) (h1 : 0 ≤ sr) (h2 : sr ≤ 1) :
    pyInt ((width : ℚ) * sr) ≤ width := by
  have hq : (0 : ℚ) ≤ (width : ℚ) * sr := by positivity
  rw [pyInt_eq_floor _ hq]
  have hwq : (0 : ℚ) ≤ (width : ℚ) := by exact_mod_cast h0
  calc ⌊(width : ℚ) * sr⌋ ≤ ⌊(width : ℚ)⌋ := by
        apply Int.floor_le_floor
        nlinarith
  _ = width := Int.floor_intCast width

theorem resolvePlacement_fields (width height assetW assetH : ℤ) (sr : ℚ) (position : String)
    (p : Placement)
    (hres : resolvePlacement width height assetW assetH sr position = .ok p) :
    p.tw = pyInt ((width : ℚ) * sr) ∧
      p.x = max 0 (min (rawPosition position width height p.tw p.th).1 (width - p.tw)) ∧
      p.y = max 0 (min (rawPosition position width height p.tw p.th).2 (height - p.th)) := by
  rw [resolvePlacement] at hres
  by_cases hw : assetW = 0
  · rw [if_pos hw] at hres
    cases hres
  · rw [if_neg hw] at hres
    have hp := Except.ok.inj hres
    subst hp
    exact ⟨rfl, rfl, rfl⟩

/-! ### Claim theorems -/

/-- Claim C1: for every input that opens and processes successfully, the Overlay
pipeline (`add_thumbnail_overlay`) writes exactly one output frame per source
frame — the output frame count equals the input frame count — for every value
of `duration_frames`. -/
theorem overlay_preserves_frame_count (wld : World) (position : String) (sr : ℚ) (d : ℤ)
    (hok : (add_thumbnail_overlay wld position sr d).ok = true) :
    (add_thumbnail_overlay wld position sr d).written.length = wld.frames.length := by
  obtain ⟨hopen, a, hload, p, hres, hloop⟩ := overlay_ok_cases wld position sr d hok
  rw [overlay_run_eq wld position sr d a p hopen hload hres]
  exact overlayLoop_ok_length _ _ _ _ _ _ _ hloop

/-- Witness for C1: a concrete 10×10 single-frame video blended with a 5×5
asset at ratio 1/2 for one frame succeeds and emits exactly one frame. -/
theorem overlay_preserves_frame_count_witness :
    (add_thumbnail_overlay squareWorld "top-left" (1/2) 1).ok = true ∧
      (add_thumbnail_overlay squareWorld "top-left" (1/2) 1).written.length =
        squareWorld.frames.length := by
  have hok : (add_thumbnail_overlay squareWorld "top-left" (1/2) 1).ok = true := by
    simp only [add_thumbnail_overlay, overlayBody, runWrap, squareWorld, squareAsset, loadThumb,
      resolvePlacement, rawPosition, pyInt, String.reduceEq, reduceIte]
    norm_num [overlayLoop]
  exact ⟨hok, overlay_preserves_frame_count squareWorld "top-left" (1/2) 1 hok⟩

/-- Counterexample to claim C2: at 29.97 fps and a 1-second intro the code
emits `int(29.97) = 29` intro frames (Python truncation), not
`round(29.97) = 30` as the claim states. -/
theorem intro_frame_count_cex :
    (create_thumbnail_intro ntscWorld 1).written.length ≠
      (round (ntscWorld.fps * ((1 : ℤ) : ℚ))).toNat + ntscWorld.frames.length := by
  rw [intro_run_eq ntscWorld 1 squareAsset rfl rfl]
  simp only [ntscWorld, List.length_append, List.length_replicate, List.length_nil, pyInt]
  rw [round_eq]
  norm_num
  decide

/-- Claim C2 as amended: the IntroSplice pipeline emits
`int(frameRate × introDurationSeconds)` (truncation toward zero) plus
`frameCount` frames in total. -/
theorem intro_frame_count (wld : World) (sec : ℤ) (a : Asset)
    (hopen : wld.videoOpens = true) (hload : loadThumb wld = .ok a) :
    (create_thumbnail_intro wld sec).written.length =
      (pyInt (wld.fps * (sec : ℚ))).toNat + wld.frames.length := by
  rw [intro_run_eq wld sec a hopen hload]
  simp

/-- Witness for the amended C2 at the concrete 29.97 fps world. -/
theorem intro_frame_count_witness :
    ntscWorld.videoOpens = true ∧
      (create_thumbnail_intro ntscWorld 1).written.length =
        (pyInt (ntscWorld.fps * ((1 : ℤ) : ℚ))).toNat + ntscWorld.frames.length :=
  ⟨rfl, intro_frame_count ntscWorld 1 squareAsset rfl rfl⟩

/-- Claim C3: in Overlay mode every source frame at index `i ≥ durationFrames`
is emitted byte-identical, and with `durationFrames = 0` the emitted sequence
is byte-identical to the input. -/
theorem overlay_passthrough (wld : World) (position : String) (sr : ℚ) (d : ℤ)
    (hok : (add_thumbnail_overlay wld position sr d).ok = true) :
    (∀ i : ℕ, d ≤ (i : ℤ) →
        (add_thumbnail_overlay wld position sr d).written[i]? = wld.frames[i]?) ∧
      (d = 0 → (add_thumbnail_overlay wld position sr d).written = wld.frames) := by
  obtain ⟨hopen, a, hload, p, hres, hloop⟩ := overlay_ok_cases wld position sr d hok
  rw [overlay_run_eq wld position sr d a p hopen hload hres]
  constructor
  · intro i hi
    have hch := overlayLoop_ok_getElem (wld.resize a p.tw p.th) p wld.width wld.height d
      wld.frames 0 hloop i
    have hnlt : ¬ ((0 : ℤ) + (i : ℤ) < d) := by omega
    simp only [hch, if_neg hnlt]
    cases wld.frames[i]? <;> rfl
  · intro hd
    subst hd
    apply List.ext_getElem?
    intro n
    have hch := overlayLoop_ok_getElem (wld.resize a p.tw p.th) p wld.width wld.height 0
      wld.frames 0 hloop n
    have hnlt : ¬ ((0 : ℤ) + (n : ℤ) < 0) := by omega
    simp only [hch, if_neg hnlt]
    cases wld.frames[n]? <;> rfl

/-- Witness for C3: the concrete run at `duration_frames = 0` passes every
frame through unmodified. -/
theorem overlay_passthrough_witness :
    (add_thumbnail_overlay squareWorld "top-left" (1/2) 0).written[0]? =
        squareWorld.frames[0]? ∧
      (add_thumbnail_overlay squareWorld "top-left" (1/2) 0).written = squareWorld.frames := by
  have hok : (add_thumbnail_overlay squareWorld "top-left" (1/2) 0).ok = true := by
    simp only [add_thumbnail_overlay, overlayBody, runWrap, squareWorld, squareAsset, loadThumb,
      resolvePlacement, rawPosition, pyInt, String.reduceEq, reduceIte]
    norm_num [overlayLoop]
  exact ⟨(overlay_passthrough squareWorld "top-left" (1/2) 0 hok).1 0 (by norm_num),
    (overlay_passthrough squareWorld "top-left" (1/2) 0 hok).2 rfl⟩

/-- Claim C4: in Overlay mode, for each frame index below `duration_frames`,
each channel of each pixel inside the destination rectangle
`[x, x+tw) × [y, y+th)` of the emitted frame is
`dest*(1 - 0.8) + asset*0.8`, rounded to the nearest representable value. -/
theorem overlay_blend_formula (wld : World) (position : String) (sr : ℚ) (d : ℤ)
    (a : Asset) (p : Placement) (i r c : ℕ) (g : Frame) (ch : Fin 3)
    (hload : loadThumb wld = .ok a)
    (hres : resolvePlacement wld.width wld.height a.w a.h sr position = .ok p)
    (hok : (add_thumbnail_overlay wld position sr d).ok = true)
    (hframe : wld.frames[i]? = some g)
    (hi : (i : ℤ) < d)
    (hr1 : p.y ≤ (r : ℤ)) (hr2 : (r : ℤ) < p.y + p.th)
    (hc1 : p.x ≤ (c : ℤ)) (hc2 : (c : ℤ) < p.x + p.tw)
    (hdb : g r c ch ≤ 255)
    (hab : wld.resize a p.tw p.th ((r : ℤ) - p.y).toNat ((c : ℤ) - p.x).toNat ch ≤ 255) :
    ((add_thumbnail_overlay wld position sr d).written[i]?).map (fun f => f r c ch) =
      some (cvRound ((g r c ch : ℚ) * (1 - 8/10) +
        (wld.resize a p.tw p.th ((r : ℤ) - p.y).toNat ((c : ℤ) - p.x).toNat ch : ℚ) *
          (8/10))).toNat := by
  obtain ⟨hopen, a2, hload2, p2, hres2, hloop⟩ := overlay_ok_cases wld position sr d hok
  have ha : a2 = a := Except.ok.inj (hload2.symm.trans hload)
  subst ha
  have hp : p2 = p := Except.ok.inj (hres2.symm.trans hres)
  subst hp
  rw [overlay_run_eq wld position sr d a2 p2 hopen hload2 hres2]
  have hch := overlayLoop_ok_getElem (wld.resize a2 p2.tw p2.th) p2 wld.width wld.height d
    wld.frames 0 hloop i
  have hlt : (0 : ℤ) + (i : ℤ) < d := by omega
  simp only [hch, hframe, Option.map_some', if_pos hlt]
  congr 1
  simp only [blendRegion, if_pos (And.intro hr1 (And.intro hr2 (And.intro hc1 hc2))),
    blendPix, addWeightedChan, alpha]
  have hD0 : (0 : ℚ) ≤ (g r c ch : ℚ) := Nat.cast_nonneg _
  have hA0 : (0 : ℚ) ≤
      (wld.resize a2 p2.tw p2.th ((r : ℤ) - p2.y).toNat ((c : ℤ) - p2.x).toNat ch : ℚ) :=
    Nat.cast_nonneg _
  have hD255 : (g r c ch : ℚ) ≤ 255 := by exact_mod_cast hdb
  have hA255 :
      (wld.resize a2 p2.tw p2.th ((r : ℤ) - p2.y).toNat ((c : ℤ) - p2.x).toNat ch : ℚ) ≤ 255 := by
    exact_mod_cast hab
  apply satCast_eq_cvRound
  · linarith
  · linarith

/-- Witness for C4 at a concrete run: dest channel 100, asset channel 200,
blended channel `round(100*0.2 + 200*0.8) = 180`. -/
theorem overlay_blend_formula_witness :
    ((add_thumbnail_overlay squareWorld "top-left" (1/2) 1).written[0]?).map
        (fun f => f 5 5 0) = some 180 := by
  have hres : resolvePlacement squareWorld.width squareWorld.height squareAsset.w squareAsset.h
      (1/2) "top-left" = Except.ok ⟨5, 5, 5, 5⟩ := by
    simp only [squareWorld, squareAsset, resolvePlacement, rawPosition, pyInt,
      String.reduceEq, reduceIte]
    norm_num
  have hok : (add_thumbnail_overlay squareWorld "top-left" (1/2) 1).ok = true := by
    simp only [add_thumbnail_overlay, overlayBody, runWrap, squareWorld, squareAsset, loadThumb,
      resolvePlacement, rawPosition, pyInt, String.reduceEq, reduceIte]
    norm_num [overlayLoop]
  have h := overlay_blend_formula squareWorld "top-left" (1/2) 1 squareAsset ⟨5, 5, 5, 5⟩
    0 5 5 grayFrame 0 rfl hres hok rfl (by decide) (by decide) (by decide) (by decide)
    (by decide) (by decide) (by decide)
  rw [h]
  norm_num [cvRound, grayFrame, squareWorld, lightFrame]
  decide

/-- Claim C5: the blend step mutates only the destination rectangle — on every
blended frame, each pixel outside `[x, x+tw) × [y, y+th)` equals the
corresponding pixel of the source frame. -/
theorem overlay_outside_rect_untouched (wld : World) (position : String) (sr : ℚ) (d : ℤ)
    (a : Asset) (p : Placement) (i r c : ℕ)
    (hload : loadThumb wld = .ok a)
    (hres : resolvePlacement wld.width wld.height a.w a.h sr position = .ok p)
    (hok : (add_thumbnail_overlay wld position sr d).ok = true)
    (hi : (i : ℤ) < d)
    (hout : ¬ (p.y ≤ (r : ℤ) ∧ (r : ℤ) < p.y + p.th ∧
      p.x ≤ (c : ℤ) ∧ (c : ℤ) < p.x + p.tw)) :
    ((add_thumbnail_overlay wld position sr d).written[i]?).map (fun f => f r c) =
      (wld.frames[i]?).map (fun f => f r c) := by
  obtain ⟨hopen, a2, hload2, p2, hres2, hloop⟩ := overlay_ok_cases wld position sr d hok
  have ha : a2 = a := Except.ok.inj (hload2.symm.trans hload)
  subst ha
  have hp : p2 = p := Except.ok.inj (hres2.symm.trans hres)
  subst hp
  rw [overlay_run_eq wld position sr d a2 p2 hopen hload2 hres2]
  have hch := overlayLoop_ok_getElem (wld.resize a2 p2.tw p2.th) p2 wld.width wld.height d
    wld.frames 0 hloop i
  have hlt : (0 : ℤ) + (i : ℤ) < d := by omega
  simp only [hch, if_pos hlt]
  cases wld.frames[i]? with
  | none => rfl
  | some g =>
    simp only [Option.map_some']
    congr 1
    simp only [blendRegion, if_neg hout]

/-- Witness for C5: pixel (0,0) lies outside the 5..9 × 5..9 rectangle and is
emitted unchanged. -/
theorem overlay_outside_rect_untouched_witness :
    ((add_thumbnail_overlay squareWorld "top-left" (1/2) 1).written[0]?).map
        (fun f => f 0 0) = (squareWorld.frames[0]?).map (fun f => f 0 0) := by
  have hres : resolvePlacement squareWorld.width squareWorld.height squareAsset.w squareAsset.h
      (1/2) "top-left" = Except.ok ⟨5, 5, 5, 5⟩ := by
    simp only [squareWorld, squareAsset, resolvePlacement, rawPosition, pyInt,
      String.reduceEq, reduceIte]
    norm_num
  have hok : (add_thumbnail_overlay squareWorld "top-left" (1/2) 1).ok = true := by
    simp only [add_thumbnail_overlay, overlayBody, runWrap, squareWorld, squareAsset, loadThumb,
      resolvePlacement, rawPosition, pyInt, String.reduceEq, reduceIte]
    norm_num [overlayLoop]
  exact overlay_outside_rect_untouched squareWorld "top-left" (1/2) 1 squareAsset ⟨5, 5, 5, 5⟩
    0 0 0 rfl hres hok (by decide) (by decide)

/-- Counterexample to claim C6: a 1920×1080 video with a 100-wide, 2000-tall
asset at ratio 1 scales to 1920×38400; the clamped origin is (0, 0), and the
claimed bound `y ≤ videoH − scaledH` fails because `1080 − 38400 < 0`. -/
theorem placement_invariant_cex :
    resolvePlacement 1920 1080 100 2000 1 "top-right" =
        Except.ok ⟨1920, 38400, 0, 0⟩ ∧
      ¬ ((0 : ℤ) ≤ (0 : ℤ) ∧ (0 : ℤ) ≤ 1080 - (38400 : ℤ)) := by
  constructor
  · simp only [resolvePlacement, rawPosition, pyInt, String.reduceEq, reduceIte]
    norm_num
  · norm_num

/-- Claim C6 as amended: the clamped placement satisfies
`0 ≤ x ≤ videoW − scaledW` and `0 ≤ y ≤ videoH − scaledH` provided the scaled
height fits the video (`scaledH ≤ videoH`); the scaled width always fits when
`sizeRatio ≤ 1`, but the code has no guard for an asset whose scaled height
exceeds the video. -/
theorem placement_invariant (width height assetW assetH : ℤ) (sr : ℚ) (position : String)
    (p : Placement) (h0 : 0 ≤ width) (h1 : 0 < sr) (h2 : sr ≤ 1)
    (hres : resolvePlacement width height assetW assetH sr position = .ok p)
    (hfit : p.th ≤ height) :
    0 ≤ p.x ∧ p.x ≤ width - p.tw ∧ 0 ≤ p.y ∧ p.y ≤ height - p.th := by
  obtain ⟨htw, hx, hy⟩ := resolvePlacement_fields width height assetW assetH sr position p hres
  have htwle : p.tw ≤ width := by
    rw [htw]
    exact thumbWidth_le width sr h0 (le_of_lt h1) h2
  refine ⟨?_, ?_, ?_, ?_⟩
  · rw [hx]; exact le_max_left 0 _
  · rw [hx]
    apply max_le
    · omega
    · exact min_le_right _ _
  · rw [hy]; exact le_max_left 0 _
  · rw [hy]
    apply max_le
    · omega
    · exact min_le_right _ _

/-- Witness for the amended C6 at the spec's own example placement. -/
theorem placement_invariant_witness :
    (0 : ℤ) ≤ 768 ∧ (768 : ℤ) ≤ 1920 - 384 ∧ (0 : ℤ) ≤ 396 ∧ (396 : ℤ) ≤ 1080 - 288 :=
  placement_invariant 1920 1080 400 300 (1/5) "center" ⟨384, 288, 768, 396⟩
    (by norm_num) (by norm_num) (by norm_num)
    (by simp only [resolvePlacement, rawPosition, pyInt, String.reduceEq, reduceIte]
        norm_num [Int.fdiv])
    (by norm_num)

/-- Counterexample to claim C7: for the 1920×1080 video with a 400×300 asset
at ratio 0.2 and anchor top-right the code places the origin at
`x = 1920 − 384 − 20 = 1516`, not at 1536 as claimed. -/
theorem placement_example_cex :
    resolvePlacement 1920 1080 400 300 (1/5) "top-right" =
        Except.ok ⟨384, 288, 1516, 20⟩ ∧
      (1516 : ℤ) ≠ 1536 := by
  constructor
  · simp only [resolvePlacement, rawPosition, pyInt, String.reduceEq, reduceIte]
    norm_num
  · norm_num

/-- Claim C7 as amended: scaled size 384×288; origin (768, 396) for anchor
center and (1516, 20) — video width minus scaled width minus the 20 px margin —
for anchor top-right. -/
theorem placement_example :
    resolvePlacement 1920 1080 400 300 (1/5) "center" = Except.ok ⟨384, 288, 768, 396⟩ ∧
      resolvePlacement 1920 1080 400 300 (1/5) "top-right" =
        Except.ok ⟨384, 288, 1516, 20⟩ := by
  constructor
  · simp only [resolvePlacement, rawPosition, pyInt, String.reduceEq, reduceIte]
    norm_num [Int.fdiv]
  · simp only [resolvePlacement, rawPosition, pyInt, String.reduceEq, reduceIte]
    norm_num

/-- Counterexample to claim C8: in the 10×10 video with the tall asset the
scaled thumbnail is 10×1000, the first blend raises after the sink was opened,
the run fails — and the partial output file is still present at the target
path. -/
theorem abort_discards_output_cex :
    (add_thumbnail_overlay tallWorld "top-left" 1 1).ok = false ∧
      (add_thumbnail_overlay tallWorld "top-left" 1 1).fileExists = true := by
  have hres : resolvePlacement tallWorld.width tallWorld.height tallAsset.w tallAsset.h
      1 "top-left" = Except.ok ⟨10, 1000, 0, 0⟩ := by
    simp only [tallWorld, tallAsset, resolvePlacement, rawPosition, pyInt,
      String.reduceEq, reduceIte]
    norm_num
  have hrun := overlay_run_eq tallWorld "top-left" 1 1 tallAsset ⟨10, 1000, 0, 0⟩ rfl rfl hres
  rw [hrun]
  constructor
  · show (overlayLoop (tallWorld.resize tallAsset 10 1000) ⟨10, 1000, 0, 0⟩ 10 10 1 0
      tallWorld.frames).2 = false
    norm_num [tallWorld, overlayLoop]
  · rfl

/-- Claim C8 as amended: once the sink has been opened the output file is
created and never discarded — after any failure past that point the partial
file remains at the target path (and the run merely returns `False`). -/
theorem abort_retains_output_file (wld : World) (position : String) (sr : ℚ) (d : ℤ)
    (a : Asset) (p : Placement)
    (hopen : wld.videoOpens = true) (hload : loadThumb wld = .ok a)
    (hres : resolvePlacement wld.width wld.height a.w a.h sr position = .ok p) :
    (add_thumbnail_overlay wld position sr d).fileExists = true := by
  rw [overlay_run_eq wld position sr d a p hopen hload hres]

/-- Witness for the amended C8 at the concrete failing run. -/
theorem abort_retains_output_file_witness :
    (add_thumbnail_overlay tallWorld "top-left" 1 1).fileExists = true :=
  abort_retains_output_file tallWorld "top-left" 1 1 tallAsset ⟨10, 1000, 0, 0⟩ rfl rfl
    (by simp only [tallWorld, tallAsset, resolvePlacement, rawPosition, pyInt,
          String.reduceEq, reduceIte]
        norm_num)

/-- Counterexample to claim C9: with a zero-width asset the run produces
exactly the same observable outcome — the undifferentiated boolean `False`,
nothing written, no file — as a run that fails for the unrelated reason that
the video cannot be opened; no distinguishable `DegenerateAssetError` (or any
typed error) reaches the caller. -/
theorem degenerate_asset_error_cex :
    add_thumbnail_overlay zeroWidthWorld "center" (1/5) 90 =
        add_thumbnail_overlay unopenableWorld "center" (1/5) 90 ∧
      (add_thumbnail_overlay zeroWidthWorld "center" (1/5) 90).ok = false :=
  ⟨rfl, rfl⟩

/-- Claim C9 as amended: a zero-width asset makes the placement computation
raise `ZeroDivisionError`, which the catch-all handler swallows — the caller
sees only the generic failure result (`False`, nothing written, no output
file), not a typed error. -/
theorem degenerate_asset_generic_failure (wld : World) (position : String) (sr : ℚ) (d : ℤ)
    (a : Asset) (hopen : wld.videoOpens = true) (hload : loadThumb wld = .ok a)
    (hw : a.w = 0) :
    add_thumbnail_overlay wld position sr d = ⟨false, [], false⟩ := by
  simp [add_thumbnail_overlay, overlayBody, hopen, hload, resolvePlacement, hw, runWrap]

/-- Witness for the amended C9 at the concrete zero-width-asset world. -/
theorem degenerate_asset_generic_failure_witness :
    add_thumbnail_overlay zeroWidthWorld "center" (1/5) 90 = ⟨false, [], false⟩ :=
  degenerate_asset_generic_failure zeroWidthWorld "center" (1/5) 90 zeroWidthAsset rfl rfl rfl

/-- Claim C10: neither entry point ever propagates an exception — any exception
raised inside the body reaches the catch-all handler and the function returns
the boolean `False` (and when no exception is raised the return value is the
boolean computed by the body). -/
theorem no_exception_propagation (wld : World) (position : String) (sr : ℚ) (d sec : ℤ) :
    (∀ e : PyExc, (overlayBody wld position sr d).1 = .error e →
        (add_thumbnail_overlay wld position sr d).ok = false) ∧
      (∀ e : PyExc, (introBody wld sec).1 = .error e →
        (create_thumbnail_intro wld sec).ok = false) := by
  constructor
  · intro e he
    rcases hb : overlayBody wld position sr d with ⟨r, outs, opened⟩
    rw [hb] at he
    simp only at he
    rw [he] at hb
    simp [add_thumbnail_overlay, hb, runWrap]
  · intro e he
    rcases hb : introBody wld sec with ⟨r, outs, opened⟩
    rw [hb] at he
    simp only at he
    rw [he] at hb
    simp [create_thumbnail_intro, hb, runWrap]

/-- Witness for C10: with an unloadable thumbnail both functions catch the
load exception and return `False`. -/
theorem no_exception_propagation_witness :
    (add_thumbnail_overlay badAssetWorld "center" (1/5) 90).ok = false ∧
      (create_thumbnail_intro badAssetWorld 3).ok = false :=
  ⟨(no_exception_propagation badAssetWorld "center" (1/5) 90 3).1 PyExc.loadError rfl,
   (no_exception_propagation badAssetWorld "center" (1/5) 90 3).2 PyExc.loadError rfl⟩
